import Mathlib

/-!
# A verification development for the goframe DataFrame library

This file gives a shallow embedding, in Lean 4, of the core of the goframe
tabular-data library: the column store (`DataFrame`), the join engine, the
grouping/aggregation engine, and the SQL read/write bridges, together with
theorems about their behaviour.

Modelling conventions:
* Go `any`-typed cell values become the closed sum type `GoValue`
  (null / int / float / string / bool / time).  Go's `float64` is embedded
  as `ℚ`; all values appearing in the claims below are dyadic rationals on
  which the modelled arithmetic (comparison, `math.Modf`, `math.Round`)
  agrees exactly with IEEE double arithmetic.
* Go maps (`map[string]*Column[any]`, `map[string]any`, group maps) become
  association lists that additionally record insertion order.  Go map
  iteration order is unspecified; every theorem below asserts only
  properties that are independent of that order (column lengths, presence
  or absence of a named column, error results, row multiset cardinalities
  along a fixed scan order).
* Fallible Go functions returning `(T, error)` become `Except String T`;
  functions returning just `error` become `Option String` (`none` = nil).
-/

namespace GoFrame

/-- A Go `time.Time`, reduced to the observable pair (Unix seconds,
nanoseconds); `time.Unix`-style constructors normalise `nsec` into
`[0, 10^9)`. -/
structure GoTime where
  sec : Int
  nsec : Int
  deriving DecidableEq, Repr

/-- The dynamically-typed cell value held in a column (`any` in the source).
`null` is the explicit absent marker (Go `nil`).  Go's several integer
widths are normalised to one constructor, and `float64`/`float32` share the
`float` constructor (no claim depends on the distinction). -/
inductive GoValue where
  | null
  | int (n : Int)
  | float (q : ℚ)
  | str (s : String)
  | bool (b : Bool)
  | time (t : GoTime)
  deriving DecidableEq, Repr

/-- A row, as materialised by `DataFrame.Row`: a map from column name to
value (`map[string]any`), modelled as an association list. -/
abbrev Row := List (String × GoValue)

/-- One named column (`Column[any]` in dataframe.go). -/
structure Column where
  name : String
  data : List GoValue
  deriving DecidableEq, Repr

/-- The column store: `map[string]*Column[any]`, modelled as a list of
columns in insertion order (names are intended to be unique). -/
structure DataFrame where
  cols : List Column
  deriving DecidableEq, Repr

namespace DataFrame

/-- Membership test for a column name (`_, exists := df.Columns[name]`). -/
def hasCol (df : DataFrame) (name : String) : Bool :=
  df.cols.any (fun c => c.name == name)

/-- Look up a column by name (`df.Columns[name]`). -/
def findCol (df : DataFrame) (name : String) : Option Column :=
  df.cols.find? (fun c => c.name == name)

/-- `DataFrame.Nrows` (dataframe.go:84): the length of the first column the
map iteration happens to visit, or 0 when there are no columns.  On the
well-formed frames all claims quantify over, every column has the same
length, so the choice of column is immaterial. -/
def Nrows (df : DataFrame) : Nat :=
  match df.cols with
  | [] => 0
  | c :: _ => c.data.length

/-- The column names of a frame, in insertion order. -/
def colNames (df : DataFrame) : List String :=
  df.cols.map (fun c => c.name)

/-- `DataFrame.Row` (dataframe.go:136) specialised to an in-range index: a
map from every column name to that column's value at `i`.  (For the
out-of-range index Go returns an error; the joins below only materialise
rows at indices `< Nrows`, where on well-formed frames the access always
succeeds; out of range we default to `null`.) -/
def rowAt (df : DataFrame) (i : Nat) : Row :=
  df.cols.map (fun c => (c.name, c.data.getD i GoValue.null))

end DataFrame

/-- The §3 equal-length invariant of the column store: every column has the
row count derived from the first column. -/
def wfDF (df : DataFrame) : Prop :=
  ∀ c ∈ df.cols, c.data.length = df.Nrows

instance : DecidablePred wfDF := fun df => by
  unfold wfDF; infer_instance

/-- All columns have exactly length `L`. -/
def uniformH (df : DataFrame) (L : Nat) : Prop :=
  ∀ c ∈ df.cols, c.data.length = L

/-- Go `row[key]` on a row map: the stored value, or the zero `any` value
(`nil`, i.e. `null`) when the key is absent — exactly how an unmatched
lookup behaves in the source's comparisons. -/
def rowGet (row : Row) (k : String) : GoValue :=
  match row.find? (fun p => p.1 == k) with
  | some p => p.2
  | none => GoValue.null

/-- Names appearing in a row. -/
def rowNames (row : Row) : List String := row.map (fun p => p.1)

/-- `mergeRows` (dataframe.go:603 and dataframe/plotting.go:349): copy of
`rowA` plus every binding of `rowB` whose key `rowA` does not already
have. -/
def mergeRows (rowA rowB : Row) : Row :=
  rowA ++ rowB.filter (fun p => (rowA.find? (fun q => q.1 == p.1)).isNone)

/-! ## The legacy top-level package (src/dataframe.go) -/

namespace Goframe

/-- `DataFrame.AddColumn` (dataframe.go:59): stores the column under its
name with **no** uniqueness check — a duplicate name silently replaces the
existing column — and always returns a nil error. -/
def AddColumn (df : DataFrame) (col : Column) : Except String DataFrame :=
  if df.hasCol col.name then
    .ok ⟨df.cols.map (fun c => if c.name == col.name then col else c)⟩
  else
    .ok ⟨df.cols ++ [col]⟩

/-- `appendRowToDataFrame` (dataframe.go:617): for each binding of the row,
append the value to the like-named result column.  Columns the row does not
mention get **nothing** appended (no backfill).  (A row binding whose name
is not a result column would nil-panic in Go; inside `Join` every emitted
row only mentions result columns, so that branch is unreachable and we drop
such bindings.) -/
def appendRowToDataFrame (df : DataFrame) (row : Row) : DataFrame :=
  ⟨df.cols.map (fun c =>
    match row.find? (fun p => p.1 == c.name) with
    | some p => ⟨c.name, c.data ++ [p.2]⟩
    | none => c)⟩

/-- The column set-up of `Join` (dataframe.go:511-524): one empty column per
left column, then one per right column not already present. -/
def joinInitCols (df other : DataFrame) : DataFrame :=
  ⟨df.cols.map (fun c => ⟨c.name, []⟩)
    ++ (other.cols.filter (fun c => !df.hasCol c.name)).map (fun c => ⟨c.name, []⟩)⟩

/-- The inner-join scan of `Join` (dataframe.go:528-538). -/
def joinInnerLoop (df other : DataFrame) (key : String) (init : DataFrame) :
    DataFrame :=
  (List.range df.Nrows).foldl (fun acc i =>
    let rowA := df.rowAt i
    (List.range other.Nrows).foldl (fun acc2 j =>
      let rowB := other.rowAt j
      if rowGet rowA key = rowGet rowB key then
        appendRowToDataFrame acc2 (mergeRows rowA rowB)
      else acc2) acc) init

/-- The left-join scan of `Join` (dataframe.go:539-554): matched pairs are
merged; an unmatched left row is appended alone. -/
def joinLeftLoop (df other : DataFrame) (key : String) (init : DataFrame) :
    DataFrame :=
  (List.range df.Nrows).foldl (fun acc i =>
    let rowA := df.rowAt i
    let p := (List.range other.Nrows).foldl (fun (p : DataFrame × Bool) j =>
      let rowB := other.rowAt j
      if rowGet rowA key = rowGet rowB key then
        (appendRowToDataFrame p.1 (mergeRows rowA rowB), true)
      else p) (acc, false)
    if p.2 then p.1 else appendRowToDataFrame p.1 rowA) init

/-- The right-join scan of `Join` (dataframe.go:555-570), symmetric to the
left scan with the roles swapped (note the merge still puts the left row
first). -/
def joinRightLoop (df other : DataFrame) (key : String) (init : DataFrame) :
    DataFrame :=
  (List.range other.Nrows).foldl (fun acc i =>
    let rowB := other.rowAt i
    let p := (List.range df.Nrows).foldl (fun (p : DataFrame × Bool) j =>
      let rowA := df.rowAt j
      if rowGet rowB key = rowGet rowA key then
        (appendRowToDataFrame p.1 (mergeRows rowA rowB), true)
      else p) (acc, false)
    if p.2 then p.1 else appendRowToDataFrame p.1 rowB) init

/-- The outer-join scan of `Join` (dataframe.go:571-594): the left pass
records each matched key *value* in `matchedRows`; the right pass then
appends every right row whose key value was never recorded. -/
def joinOuterLoop (df other : DataFrame) (key : String) (init : DataFrame) :
    DataFrame :=
  let lp := (List.range df.Nrows).foldl
    (fun (st : DataFrame × List GoValue) i =>
      let rowA := df.rowAt i
      let q := (List.range other.Nrows).foldl
        (fun (q : DataFrame × List GoValue × Bool) j =>
          let rowB := other.rowAt j
          if rowGet rowA key = rowGet rowB key then
            (appendRowToDataFrame q.1 (mergeRows rowA rowB),
             q.2.1 ++ [rowGet rowA key], true)
          else q) (st.1, st.2, false)
      if q.2.2 then (q.1, q.2.1) else (appendRowToDataFrame q.1 rowA, q.2.1))
    (init, [])
  (List.range other.Nrows).foldl (fun acc i =>
    let rowB := other.rowAt i
    if rowGet rowB key ∈ lp.2 then acc
    else appendRowToDataFrame acc rowB) lp.1

/-- `DataFrame.Join` (dataframe.go:500-600): key-existence checks on both
inputs, then the scan selected by `joinType`. -/
def Join (df other : DataFrame) (key joinType : String) :
    Except String DataFrame :=
  if !df.hasCol key then
    .error ("key column '" ++ key ++ "' does not exist in the first DataFrame")
  else if !other.hasCol key then
    .error ("key column '" ++ key ++ "' does not exist in the second DataFrame")
  else
    let init := joinInitCols df other
    match joinType with
    | "inner" => .ok (joinInnerLoop df other key init)
    | "left" => .ok (joinLeftLoop df other key init)
    | "right" => .ok (joinRightLoop df other key init)
    | "outer" => .ok (joinOuterLoop df other key init)
    | _ => .error ("unsupported join type: " ++ joinType)

end Goframe

/-! ## The dataframe package (src/dataframe/groupby.go, plotting.go,
part_005, part_008, part_009) -/

namespace Dataframe

/-- `DataFrame.AddColumn` (dataframe/plotting.go:427): rejects a duplicate
column name with an error instead of replacing the stored column. -/
def AddColumn (df : DataFrame) (col : Column) : Except String DataFrame :=
  if df.hasCol col.name then
    .error ("Column '" ++ col.name ++ "' already exists")
  else
    .ok ⟨df.cols ++ [col]⟩

/-- `checkExists` (dataframe/plotting.go:317): the join precondition that
the key column exists in both inputs. -/
def checkExists (df other : DataFrame) (key : String) : Option String :=
  if !df.hasCol key then
    some ("key column '" ++ key ++ "' does not exist in the first DataFrame")
  else if !other.hasCol key then
    some ("key column '" ++ key ++ "' does not exist in the second DataFrame")
  else
    none

/-- `appendCols` (dataframe/plotting.go:328): the result starts with one
empty column per left column plus one per right column not already
present. -/
def appendCols (df other : DataFrame) : DataFrame :=
  ⟨df.cols.map (fun c => ⟨c.name, []⟩)
    ++ (other.cols.filter (fun c => !df.hasCol c.name)).map (fun c => ⟨c.name, []⟩)⟩

/-- `DataFrame.AppendRow` (dataframe/plotting.go:360), the row emitter used
by the four join variants: (1) create any column the row mentions that the
result lacks (created empty; its only entry will be this row's value);
(2) append a `null` placeholder to every existing column the row does not
mention — the columnar backfill; (3) append the row's own values.  (Step 1's
inner `AddColumn` only runs for names the result does not have, so it never
errors; the Go error path is unreachable and the function is modelled
pure.) -/
def AppendRow (df : DataFrame) (row : Row) : DataFrame :=
  ⟨df.cols.map (fun c =>
      match row.find? (fun p => p.1 == c.name) with
      | some p => ⟨c.name, c.data ++ [p.2]⟩
      | none => ⟨c.name, c.data ++ [GoValue.null]⟩)
    ++ (row.filter (fun p => !df.hasCol p.1)).map (fun p => ⟨p.1, [p.2]⟩)⟩

/-- `DataFrame.InnerJoin` (dataframe/groupby.go:128): nested-loop scan
emitting a merged row for every key-equal pair. -/
def InnerJoin (df other : DataFrame) (key : String) : Except String DataFrame :=
  match checkExists df other key with
  | some e => .error e
  | none =>
    .ok ((List.range df.Nrows).foldl (fun acc i =>
      let rowA := df.rowAt i
      (List.range other.Nrows).foldl (fun acc2 j =>
        let rowB := other.rowAt j
        if rowGet rowA key = rowGet rowB key then
          AppendRow acc2 (mergeRows rowA rowB)
        else acc2) acc) (appendCols df other))

/-- `DataFrame.LeftJoin` (dataframe/groupby.go:155): merged rows for
matches, the bare left row when unmatched. -/
def LeftJoin (df other : DataFrame) (key : String) : Except String DataFrame :=
  match checkExists df other key with
  | some e => .error e
  | none =>
    .ok ((List.range df.Nrows).foldl (fun acc i =>
      let rowA := df.rowAt i
      let p := (List.range other.Nrows).foldl (fun (p : DataFrame × Bool) j =>
        let rowB := other.rowAt j
        if rowGet rowA key = rowGet rowB key then
          (AppendRow p.1 (mergeRows rowA rowB), true)
        else p) (acc, false)
      if p.2 then p.1 else AppendRow p.1 rowA) (appendCols df other))

/-- `DataFrame.RightJoin` (dataframe/groupby.go:186): symmetric to
`LeftJoin` with the roles swapped. -/
def RightJoin (df other : DataFrame) (key : String) : Except String DataFrame :=
  match checkExists df other key with
  | some e => .error e
  | none =>
    .ok ((List.range other.Nrows).foldl (fun acc i =>
      let rowB := other.rowAt i
      let p := (List.range df.Nrows).foldl (fun (p : DataFrame × Bool) j =>
        let rowA := df.rowAt j
        if rowGet rowB key = rowGet rowA key then
          (AppendRow p.1 (mergeRows rowA rowB), true)
        else p) (acc, false)
      if p.2 then p.1 else AppendRow p.1 rowB) (appendCols df other))

/-- `DataFrame.OuterJoin` (dataframe/groupby.go:217): a left pass recording
matched key *values*, then a right pass appending every right row whose key
value was never recorded. -/
def OuterJoin (df other : DataFrame) (key : String) : Except String DataFrame :=
  match checkExists df other key with
  | some e => .error e
  | none =>
    let lp := (List.range df.Nrows).foldl
      (fun (st : DataFrame × List GoValue) i =>
        let rowA := df.rowAt i
        let q := (List.range other.Nrows).foldl
          (fun (q : DataFrame × List GoValue × Bool) j =>
            let rowB := other.rowAt j
            if rowGet rowA key = rowGet rowB key then
              (AppendRow q.1 (mergeRows rowA rowB),
               q.2.1 ++ [rowGet rowA key], true)
            else q) (st.1, st.2, false)
        if q.2.2 then (q.1, q.2.1) else (AppendRow q.1 rowA, q.2.1))
      (appendCols df other, [])
    .ok ((List.range other.Nrows).foldl (fun acc i =>
      let rowB := other.rowAt i
      if rowGet rowB key ∈ lp.2 then acc
      else AppendRow acc rowB) lp.1)

/-! ### Grouping engine (src/dataframe/groupby.go) -/

/-- The dynamic `key any` argument of `Groupby`: the source switches on
`string`, `[]string`, `Series`, `map[string]string`,
`func(map[string]any) any`, with a default for every other runtime type
(`other` carries the `%T` type name used in the error message). -/
inductive GroupKeySpec where
  | str (s : String)
  | strList (l : List String)
  | series
  | mapSpec
  | funcSpec
  | other (typeName : String)
  deriving DecidableEq, Repr

/-- `GroupedDataFrame` (dataframe/groupby.go:5): the groups map (modelled
with its insertion order), the originating key name, and the stored error
slot. -/
structure GroupedDataFrame where
  Groups : List (GoValue × List Row)
  Key : String
  Err : Option String
  deriving DecidableEq, Repr

/-- `groups[groupKey] = append(groups[groupKey], row)` on the group map:
append to the existing entry, or insert a new key at the end (the model's
record of first-seen order; the Go map itself is unordered). -/
def groupsInsert (groups : List (GoValue × List Row)) (k : GoValue)
    (row : Row) : List (GoValue × List Row) :=
  if groups.any (fun p => p.1 == k) then
    groups.map (fun p => if p.1 == k then (p.1, p.2 ++ [row]) else p)
  else
    groups ++ [(k, [row])]

/-- `groupByString` (dataframe/groupby.go:49): check the key column exists,
then scan rows in storage order, filing each full row under its key-column
value. -/
def groupByString (df : DataFrame) (colName : String) :
    Except String (List (GoValue × List Row)) :=
  if !df.hasCol colName then
    .error ("Column '" ++ colName ++ "' does not exist")
  else
    .ok ((List.range df.Nrows).foldl (fun groups i =>
      let row := df.rowAt i
      groupsInsert groups (rowGet row colName) row) [])

/-- `DataFrame.Groupby` (dataframe/groupby.go:21): only the `string` arm is
implemented; the `[]string`, `Series`, `map[string]string` and function
arms are stubs (`// do something`) that fall through and return the empty
group map with a nil error; every other runtime type is the
`unsupported groupby key type` usage error. -/
def Groupby (df : DataFrame) (key : GroupKeySpec) : GroupedDataFrame :=
  match key with
  | .str s =>
    match groupByString df s with
    | .error e => ⟨[], "", some ("unable to group by string: " ++ e)⟩
    | .ok groups => ⟨groups, s, none⟩
  | .strList _ => ⟨[], "", none⟩
  | .series => ⟨[], "", none⟩
  | .mapSpec => ⟨[], "", none⟩
  | .funcSpec => ⟨[], "", none⟩
  | .other typeName =>
    ⟨[], "", some ("unsupported groupby key type: " ++ typeName)⟩

/-- The numeric coercion of `GroupedDataFrame.Sum`
(dataframe/groupby.go:93-100): `int`, `float64` and `float32` values are
added, everything else (including the absent marker) is skipped. -/
def sumCell (acc : ℚ) (v : GoValue) : ℚ :=
  match v with
  | .int n => acc + n
  | .float q => acc + q
  | _ => acc

/-- The per-group, per-column reduction of `Sum`: fold over the group's
rows, coercing the named cell. -/
def sumColumn (rows : List Row) (colName : String) : ℚ :=
  rows.foldl (fun acc row =>
    match row.find? (fun p => p.1 == colName) with
    | some p => sumCell acc p.2
    | none => acc) 0

/-- The inner loop of `Sum` (dataframe/groupby.go:88-110): for one group,
add one single-value column per requested name, wrapping an `AddColumn`
failure as `failed to add column`. -/
def sumAddCols (rows : List Row) (colNames : List String)
    (resultDf : DataFrame) : Except String DataFrame :=
  match colNames with
  | [] => .ok resultDf
  | colName :: rest =>
    match AddColumn resultDf ⟨colName, [GoValue.float (sumColumn rows colName)]⟩ with
    | .error e => .error ("failed to add column '" ++ colName ++ "': " ++ e)
    | .ok df => sumAddCols rows rest df

/-- The outer loop of `Sum` (dataframe/groupby.go:85-113): over every group
(map order; in the model, first-seen order — the shapes proved below do not
depend on it), run the per-group column additions; with no requested names
the body does nothing. -/
def sumGroups (groups : List (GoValue × List Row)) (colNames : List String)
    (resultDf : DataFrame) : Except String DataFrame :=
  match groups with
  | [] => .ok resultDf
  | g :: rest =>
    if colNames.isEmpty then sumGroups rest colNames resultDf
    else
      match sumAddCols g.2 colNames resultDf with
      | .error e => .error e
      | .ok df => sumGroups rest colNames df

/-- `GroupedDataFrame.Sum` (dataframe/groupby.go:78): propagate a stored
error; otherwise run the group loop from an empty result.  Note the result
never receives a `GroupKey` column, and the second group to add a
same-named column hits `AddColumn`'s duplicate check. -/
def Sum (gdf : GroupedDataFrame) (colNames : List String) :
    Except String DataFrame :=
  match gdf.Err with
  | some e => .error e
  | none => sumGroups gdf.Groups colNames (DataFrame.mk [])

/-! ### SQL read bridge (src/unnamed/part_005) -/

/-- A scan destination (`createScanDestination`, part_005:163): one of the
`sql.Null*` wrappers, holding `none` when the wire value was SQL NULL. -/
inductive ScanDest where
  | nullString (v : Option String)
  | nullInt64 (v : Option Int)
  | nullFloat64 (v : Option ℚ)
  | nullBool (v : Option Bool)
  | nullTime (v : Option GoTime)
  deriving DecidableEq, Repr

/-- Whether the scanned wire value was SQL NULL (`!v.Valid`). -/
def ScanDest.isNull : ScanDest → Bool
  | .nullString v => v.isNone
  | .nullInt64 v => v.isNone
  | .nullFloat64 v => v.isNone
  | .nullBool v => v.isNone
  | .nullTime v => v.isNone

/-- The valid value carried by a scan destination (`v.String`, `v.Int64`,
…); the argument is irrelevant when the destination is NULL. -/
def ScanDest.value : ScanDest → GoValue
  | .nullString v => .str (v.getD "")
  | .nullInt64 v => .int (v.getD 0)
  | .nullFloat64 v => .float (v.getD 0)
  | .nullBool v => .bool (v.getD false)
  | .nullTime v => .time (v.getD ⟨0, 0⟩)

/-- The dynamic `nullHandler any` option: a string, a `map[string]any` of
per-column defaults, or any other runtime type (`invalid` carries the `%T`
name used in the error message). -/
inductive NullHandler where
  | str (s : String)
  | map (m : List (String × GoValue))
  | invalid (typeName : String)
  deriving DecidableEq, Repr

/-- `handleNull` (part_005:238): the NULL-handling strategy.  `"nil"` keeps
the absent marker; `"zero"` substitutes the column type's zero value —
except for timestamp columns, which deliberately get the absent marker
("time.Time zero value is not very useful"); `"skip_row"` signals the
caller through the sentinel error `skip_row`; an unknown string or a
non-string non-map handler is a hard error; a map substitutes the
column's entry when present and the absent marker otherwise. -/
def handleNull (colName : String) (nullHandler : NullHandler)
    (dest : ScanDest) : Except String GoValue :=
  match nullHandler with
  | .str h =>
    match h with
    | "nil" => .ok .null
    | "zero" =>
      match dest with
      | .nullString _ => .ok (.str "")
      | .nullInt64 _ => .ok (.int 0)
      | .nullFloat64 _ => .ok (.float 0)
      | .nullBool _ => .ok (.bool false)
      | .nullTime _ => .ok .null
    | "skip_row" => .error "skip_row"
    | _ => .error ("unknown null handler: " ++ h)
  | .map m =>
    match m.find? (fun p => p.1 == colName) with
    | some p => .ok p.2
    | none => .ok .null
  | .invalid typeName => .error ("invalid null handler type: " ++ typeName)

/-- `extractValue` (part_005:188): a valid scan destination yields its
value; a NULL one goes through `handleNull`. -/
def extractValue (dest : ScanDest) (colName : String)
    (nullHandler : NullHandler) : Except String GoValue :=
  if dest.isNull then handleNull colName nullHandler dest
  else .ok dest.value

/-- The per-row loop of `fromSQLRows` (part_005:104-132), without date
parsing: extract every column's value; the sentinel `skip_row` error drops
the whole row (`ok none`); any other error aborts the read. -/
def processRow (cols : List (String × ScanDest)) (nullHandler : NullHandler) :
    Except String (Option (List GoValue)) :=
  match cols with
  | [] => .ok (some [])
  | (name, dest) :: rest =>
    match extractValue dest name nullHandler with
    | .error e => if e = "skip_row" then .ok none else .error e
    | .ok v =>
      match processRow rest nullHandler with
      | .ok (some vs) => .ok (some (v :: vs))
      | .ok none => .ok none
      | .error e => .error e

/-! ### Date parsing of the SQL read bridge (part_005:278-335)

`parseDateValue` dispatches a `float64` wire value to `timeFromFloat64`
(part_005:315-317).  The float is embedded as `ℚ`; for the dyadic values
the claims mention, every operation below (`>` comparison, `math.Modf`,
`math.Round`, integer conversion) is exact in IEEE double precision, so
the rational model agrees with the Go computation. -/

/-- Go's `int64(v)` conversion of a float: truncation toward zero. -/
def truncQ (q : ℚ) : Int := if 0 ≤ q then ⌊q⌋ else ⌈q⌉

/-- Go's `math.Round`: round half away from zero. -/
def roundQ (q : ℚ) : Int :=
  if 0 ≤ q then truncQ (q + 1/2) else truncQ (q - 1/2)

/-- Go's `time.Unix(sec, nsec)` normalisation of `nsec` into `[0, 10^9)`
(Go `/` and `%` truncate toward zero, hence the extra negative-remainder
step). -/
def timeUnix (sec nsec : Int) : GoTime :=
  if nsec < 0 ∨ 1000000000 ≤ nsec then
    let n := Int.tdiv nsec 1000000000
    let sec := sec + n
    let nsec := nsec - n * 1000000000
    if nsec < 0 then ⟨sec - 1, nsec + 1000000000⟩ else ⟨sec, nsec⟩
  else ⟨sec, nsec⟩

/-- Go's `time.UnixMilli(msec)` = `Unix(msec/1000, (msec%1000)*10^6)` with
truncating division. -/
def timeUnixMilli (msec : Int) : GoTime :=
  timeUnix (Int.tdiv msec 1000) (Int.tmod msec 1000 * 1000000)

/-- `timeFromFloat64` (part_005:326): magnitudes beyond `10^12` are Unix
milliseconds; otherwise the value is split by `math.Modf` into whole Unix
seconds plus a rounded nanosecond remainder. -/
def timeFromFloat64 (v : ℚ) : GoTime :=
  if v > 1000000000000 ∨ v < -1000000000000 then
    timeUnixMilli (truncQ v)
  else
    let sec := truncQ v
    let frac := v - sec
    let nanos := roundQ (frac * 1000000000)
    timeUnix sec nanos

/-! ### SQL dialect abstraction (src/unnamed/part_008) -/

/-- The three dialect strategies. -/
inductive SQLDialect where
  | sqlite
  | postgres
  | mysql
  deriving DecidableEq, Repr

/-- `Placeholder` (part_008:60, 119, 177): SQLite and MySQL always emit
`?`; PostgreSQL emits the 1-based `$N`. -/
def SQLDialect.Placeholder : SQLDialect → Nat → String
  | .sqlite, _ => "?"
  | .postgres, index => "$" ++ toString index
  | .mysql, _ => "?"

/-- `QuoteIdentifier` (part_008:65, 124, 182): double quotes for SQLite and
PostgreSQL, backticks for MySQL. -/
def SQLDialect.QuoteIdentifier : SQLDialect → String → String
  | .sqlite, name => "\"" ++ name ++ "\""
  | .postgres, name => "\"" ++ name ++ "\""
  | .mysql, name => "\x60" ++ name ++ "\x60"

/-! ### SQL write bridge (src/unnamed/part_009) -/

/-- `SQLWriteOption` (part_009:11), with Go's zero values as the field
defaults (an unset field is indistinguishable from its zero value). -/
structure SQLWriteOption where
  IfExists : String := ""
  Dialect : String := ""
  BatchSize : Int := 0
  TypeMap : Option (List (String × String)) := none
  CreateTable : Bool := false
  deriving DecidableEq, Repr

/-- ASCII lowering standing in for Go's `strings.ToLower` (all dialect
names involved are ASCII). -/
def asciiLower (s : String) : String := s.map Char.toLower

/-- The user-option validation of `ToSQLTxContext` (part_009:67-95), run
before defaults are applied, before the dialect is selected, and before the
table-existence check: `IfExists` must be empty or one of
fail/replace/append; a non-zero `BatchSize` must be positive (a zero value
is indistinguishable from "not set" and passes); a non-empty `Dialect`
must be a known alias.  Returns the first violation's error, or `none`. -/
def validateWriteOptions (options : List SQLWriteOption) : Option String :=
  match options with
  | [] => none
  | userOpt :: _ =>
    if userOpt.IfExists ≠ "" ∧
        userOpt.IfExists ∉ (["fail", "replace", "append"] : List String) then
      some ("invalid IfExists option: " ++ userOpt.IfExists ++
        " (must be 'fail', 'replace', or 'append')")
    else if userOpt.BatchSize ≠ 0 ∧ userOpt.BatchSize ≤ 0 then
      some ("BatchSize must be greater than 0, got " ++ toString userOpt.BatchSize)
    else if userOpt.Dialect ≠ "" ∧
        asciiLower userOpt.Dialect ∉
          (["sqlite", "sqlite3", "postgres", "postgresql", "pq", "mysql"] :
            List String) then
      some ("unknown dialect: " ++ userOpt.Dialect ++
        " (supported: sqlite, postgres, mysql)")
    else none

/-- The defaults merge of `ToSQLTxContext` (part_009:98-120): start from
`{IfExists := "fail", BatchSize := 1000, CreateTable := true}` and copy the
caller's non-zero fields — except `CreateTable`, which is deliberately
**never** copied ("We don't override CreateTable to preserve the default
value of true"), so the effective value is always `true`. -/
def applyWriteDefaults (options : List SQLWriteOption) : SQLWriteOption :=
  let opts : SQLWriteOption :=
    { IfExists := "fail", BatchSize := 1000, CreateTable := true }
  match options with
  | [] => opts
  | userOpt :: _ =>
    { IfExists := if userOpt.IfExists ≠ "" then userOpt.IfExists else opts.IfExists
      Dialect := if userOpt.Dialect ≠ "" then userOpt.Dialect else opts.Dialect
      BatchSize := if userOpt.BatchSize > 0 then userOpt.BatchSize else opts.BatchSize
      TypeMap := if userOpt.TypeMap ≠ none then userOpt.TypeMap else opts.TypeMap
      CreateTable := opts.CreateTable }

/-- Dialect selection (part_009:128-145): an explicit alias picks the
dialect; an empty name falls back to SQLite (the `sql.Tx` driver cannot be
inspected).  An unknown non-empty name errors (unreachable after
validation, but present in the source). -/
def selectDialect (name : String) : Except String SQLDialect :=
  if name ≠ "" then
    match asciiLower name with
    | "sqlite" => .ok .sqlite
    | "sqlite3" => .ok .sqlite
    | "postgres" => .ok .postgres
    | "postgresql" => .ok .postgres
    | "pq" => .ok .postgres
    | "mysql" => .ok .mysql
    | _ => .error ("unknown dialect: " ++ name ++
        " (supported: sqlite, postgres, mysql)")
  else .ok .sqlite

/-- The chunking loop of `batchInsertTx` (part_009:261-270):
`for batchStart := 0; batchStart < nRows; batchStart += batchSize`, each
chunk covering `[batchStart, min (batchStart+batchSize) nRows)`.  The
`fuel` argument is pure termination bookkeeping (with a positive batch size
the loop runs at most `nRows` times and the fuel is never exhausted); the
`0 < batchSize` guard reflects that the write path only reaches this loop
with a validated positive batch size (default 1000). -/
def batchRangesFrom (nRows batchSize : Nat) : Nat → Nat → List (Nat × Nat)
  | 0, _ => []
  | fuel + 1, start =>
    if start < nRows ∧ 0 < batchSize then
      (start, min (start + batchSize) nRows) ::
        batchRangesFrom nRows batchSize fuel (start + batchSize)
    else []

/-- The chunks of one batched write: one per multi-row INSERT statement. -/
def batchRanges (nRows batchSize : Nat) : List (Nat × Nat) :=
  batchRangesFrom nRows batchSize nRows 0

/-- The placeholder-index loop of `insertBatch` (part_009:288-297):
`placeholderIdx` starts at 1 and increments once per scalar value, across
every row of the chunk (it is **not** reset at row boundaries).  Returns
one list of indices per row of the chunk. -/
def insertBatchPlaceholderRows (nRows nCols : Nat) : List (List Nat) :=
  ((List.range nRows).foldl (fun (st : List (List Nat) × Nat) _ =>
    let inner := (List.range nCols).foldl
      (fun (r : List Nat × Nat) _ => (r.1 ++ [r.2], r.2 + 1)) ([], st.2)
    (st.1 ++ [inner.1], inner.2)) ([], 1)).1

/-- The placeholder fragment of one chunk's INSERT, as the dialect renders
it: `(p, p, …), (p, p, …), …` (part_009:288-305). -/
def insertBatchPlaceholderSQL (dialect : SQLDialect) (nRows nCols : Nat) :
    String :=
  String.intercalate ", "
    ((insertBatchPlaceholderRows nRows nCols).map (fun row =>
      "(" ++ String.intercalate ", " (row.map dialect.Placeholder) ++ ")"))

/-- The database-visible actions of one `ToSQLTxContext` call, in issue
order. -/
inductive SQLAction where
  | checkExists (table : String)
  | dropTable (table : String)
  | createTable (table : String)
  | insertChunk (startIdx endIdx : Nat)
  deriving DecidableEq, Repr

/-- `ToSQLTxContext` (part_009:66-188) as a pure state machine over the
database's one input (whether the table exists): validate the user options;
apply defaults; select the dialect; issue the existence check; apply the
IfExists policy (fail → error, replace → DROP, append → keep); CREATE the
table when absent (the effective CreateTable is always true); stop before
inserting when the frame has no rows; otherwise issue one INSERT per
chunk of `BatchSize` rows. -/
def ToSQLTxContext (df : DataFrame) (tableName : String)
    (options : List SQLWriteOption) (tableExists : Bool) :
    Except String (List SQLAction) :=
  match validateWriteOptions options with
  | some e => .error e
  | none =>
    let opts := applyWriteDefaults options
    match selectDialect opts.Dialect with
    | .error e => .error e
    | .ok _ =>
      let acts := [SQLAction.checkExists tableName]
      match
        (if tableExists then
          match opts.IfExists with
          | "fail" => .error ("table " ++ tableName ++ " already exists")
          | "replace" => .ok (acts ++ [SQLAction.dropTable tableName], false)
          | _ => .ok (acts, true)
        else .ok (acts, false) : Except String (List SQLAction × Bool)) with
      | .error e => .error e
      | .ok (acts, stillExists) =>
        let acts := if !stillExists ∧ opts.CreateTable then
          acts ++ [SQLAction.createTable tableName] else acts
        if df.Nrows = 0 then .ok acts
        else
          .ok (acts ++ (batchRanges df.Nrows opts.BatchSize.toNat).map
            (fun p => SQLAction.insertChunk p.1 p.2))

end Dataframe

/-! ## Supporting lemmas -/

/-- A fold preserves any invariant its step preserves. -/
theorem foldl_invariant {α β : Type _} (P : α → Prop) (f : α → β → α)
    (l : List β) (a : α) (h0 : P a) (hstep : ∀ x b, P x → P (f x b)) :
    P (l.foldl f a) := by
  induction l generalizing a with
  | nil => exact h0
  | cons b l ih => exact ih _ (hstep _ _ h0)

theorem hasCol_iff {df : DataFrame} {x : String} :
    df.hasCol x = true ↔ x ∈ df.colNames := by
  unfold DataFrame.hasCol DataFrame.colNames
  rw [List.any_eq_true]
  constructor
  · rintro ⟨c, hc, he⟩
    exact List.mem_map.mpr ⟨c, hc, by simpa using he⟩
  · intro h
    rcases List.mem_map.mp h with ⟨c, hc, he⟩
    exact ⟨c, hc, by simpa using he⟩

theorem rowNames_rowAt (df : DataFrame) (i : Nat) :
    rowNames (df.rowAt i) = df.colNames := by
  simp [rowNames, DataFrame.rowAt, DataFrame.colNames]

theorem rowNames_mergeRows {r1 r2 : Row} {a : String}
    (h : a ∈ rowNames (mergeRows r1 r2)) :
    a ∈ rowNames r1 ∨ a ∈ rowNames r2 := by
  simp only [rowNames, mergeRows, List.map_append, List.mem_append] at h
  rcases h with h | h
  · exact Or.inl h
  · right
    rcases List.mem_map.mp h with ⟨p, hp, he⟩
    exact List.mem_map.mpr ⟨p, (List.mem_filter.mp hp).1, he⟩

namespace Dataframe

theorem colNames_appendCols (df other : DataFrame) :
    (appendCols df other).colNames =
      df.colNames ++
        (other.cols.filter (fun c => !df.hasCol c.name)).map (fun c => c.name) := by
  simp only [appendCols, DataFrame.colNames, List.map_append, List.map_map]
  rfl

theorem mem_colNames_appendCols_left {df other : DataFrame} {x : String}
    (h : x ∈ df.colNames) : x ∈ (appendCols df other).colNames := by
  rw [colNames_appendCols]
  exact List.mem_append_left _ h

theorem mem_colNames_appendCols_right {df other : DataFrame} {x : String}
    (h : x ∈ other.colNames) : x ∈ (appendCols df other).colNames := by
  by_cases hd : df.hasCol x = true
  · exact mem_colNames_appendCols_left (hasCol_iff.mp hd)
  · rw [colNames_appendCols]
    refine List.mem_append_right _ ?_
    simp only [DataFrame.colNames, List.mem_map] at h
    rcases h with ⟨c, hc, he⟩
    refine List.mem_map.mpr ⟨c, List.mem_filter.mpr ⟨hc, ?_⟩, he⟩
    subst he
    simp [hd]

theorem uniformH_appendCols (df other : DataFrame) :
    uniformH (appendCols df other) 0 := by
  intro c hc
  simp only [appendCols, List.mem_append, List.mem_map, List.mem_filter] at hc
  rcases hc with ⟨d, _, he⟩ | ⟨d, _, he⟩ <;> subst he <;> rfl

/-- `AppendRow` on a result that already has every column the row mentions:
the column names are unchanged and every column grows by exactly one entry
(the row's value, or the `null` backfill). -/
theorem AppendRow_uniform {d : DataFrame} {r : Row} {L : Nat}
    (hn : ∀ a ∈ rowNames r, a ∈ d.colNames) (hu : uniformH d L) :
    (AppendRow d r).colNames = d.colNames ∧
      uniformH (AppendRow d r) (L + 1) := by
  have hfilter : r.filter (fun p => !d.hasCol p.1) = [] := by
    refine List.filter_eq_nil_iff.mpr (fun p hp => ?_)
    have : p.1 ∈ d.colNames := hn p.1 (List.mem_map.mpr ⟨p, hp, rfl⟩)
    simp [hasCol_iff.mpr this]
  constructor
  · simp only [AppendRow, hfilter, List.map_nil, List.append_nil,
      DataFrame.colNames, List.map_map]
    refine List.map_congr_left (fun c _ => ?_)
    cases h : r.find? (fun p => p.1 == c.name) <;> simp [h]
  · intro c hc
    simp only [AppendRow, hfilter, List.map_nil, List.append_nil,
      List.mem_map] at hc
    rcases hc with ⟨c0, hc0, he⟩
    have hl := hu c0 hc0
    cases h : r.find? (fun p => p.1 == c0.name) <;>
      rw [h] at he <;> rw [← he] <;> simp [hl]

/-- The invariant carried through every join scan: the result keeps the
column set laid down by `appendCols` and all its columns share one
length. -/
def JoinInv (df other : DataFrame) (d : DataFrame) : Prop :=
  d.colNames = (appendCols df other).colNames ∧ ∃ L, uniformH d L

theorem JoinInv_init (df other : DataFrame) :
    JoinInv df other (appendCols df other) :=
  ⟨rfl, 0, uniformH_appendCols df other⟩

/-- Appending any row drawn from the two inputs (a materialised left row, a
right row, or a merge of both) preserves the invariant. -/
theorem JoinInv_append {df other d : DataFrame} {r : Row}
    (hinv : JoinInv df other d)
    (hr : ∀ a ∈ rowNames r, a ∈ df.colNames ∨ a ∈ other.colNames) :
    JoinInv df other (AppendRow d r) := by
  obtain ⟨hnames, L, hu⟩ := hinv
  have hn : ∀ a ∈ rowNames r, a ∈ d.colNames := by
    intro a ha
    rw [hnames]
    rcases hr a ha with h | h
    · exact mem_colNames_appendCols_left h
    · exact mem_colNames_appendCols_right h
  obtain ⟨h1, h2⟩ := AppendRow_uniform hn hu
  exact ⟨h1.trans hnames, L + 1, h2⟩

theorem rowAt_left_names {df other : DataFrame} {i : Nat} :
    ∀ a ∈ rowNames (df.rowAt i), a ∈ df.colNames ∨ a ∈ other.colNames := by
  intro a ha
  rw [rowNames_rowAt] at ha
  exact Or.inl ha

theorem rowAt_right_names {df other : DataFrame} {i : Nat} :
    ∀ a ∈ rowNames (other.rowAt i), a ∈ df.colNames ∨ a ∈ other.colNames := by
  intro a ha
  rw [rowNames_rowAt] at ha
  exact Or.inr ha

theorem mergeRows_rowAt_names {df other : DataFrame} {i j : Nat} :
    ∀ a ∈ rowNames (mergeRows (df.rowAt i) (other.rowAt j)),
      a ∈ df.colNames ∨ a ∈ other.colNames := by
  intro a ha
  rcases rowNames_mergeRows ha with h | h
  · rw [rowNames_rowAt] at h; exact Or.inl h
  · rw [rowNames_rowAt] at h; exact Or.inr h

theorem JoinInv_wf {df other d : DataFrame} (h : JoinInv df other d) :
    wfDF d := by
  obtain ⟨_, L, hu⟩ := h
  intro c hc
  have hL := hu c hc
  rcases hd : d.cols with _ | ⟨c0, cs⟩
  · rw [hd] at hc; cases hc
  · have h0 : c0.data.length = L := hu c0 (by rw [hd]; exact List.mem_cons_self c0 cs)
    simp [DataFrame.Nrows, hd, hL, h0]

theorem InnerJoin_inv (df other : DataFrame) (key : String) :
    JoinInv df other ((List.range df.Nrows).foldl (fun acc i =>
      let rowA := df.rowAt i
      (List.range other.Nrows).foldl (fun acc2 j =>
        let rowB := other.rowAt j
        if rowGet rowA key = rowGet rowB key then
          AppendRow acc2 (mergeRows rowA rowB)
        else acc2) acc) (appendCols df other)) := by
  refine foldl_invariant _ _ _ _ (JoinInv_init df other) (fun acc i hacc => ?_)
  refine foldl_invariant _ _ _ _ hacc (fun acc2 j h2 => ?_)
  dsimp only
  split
  · exact JoinInv_append h2 mergeRows_rowAt_names
  · exact h2

theorem LeftJoin_inv (df other : DataFrame) (key : String) :
    JoinInv df other ((List.range df.Nrows).foldl (fun acc i =>
      let rowA := df.rowAt i
      let p := (List.range other.Nrows).foldl (fun (p : DataFrame × Bool) j =>
        let rowB := other.rowAt j
        if rowGet rowA key = rowGet rowB key then
          (AppendRow p.1 (mergeRows rowA rowB), true)
        else p) (acc, false)
      if p.2 then p.1 else AppendRow p.1 rowA) (appendCols df other)) := by
  refine foldl_invariant _ _ _ _ (JoinInv_init df other) (fun acc i hacc => ?_)
  have hp : JoinInv df other (((List.range other.Nrows).foldl
      (fun (p : DataFrame × Bool) j =>
        let rowB := other.rowAt j
        if rowGet (df.rowAt i) key = rowGet rowB key then
          (AppendRow p.1 (mergeRows (df.rowAt i) rowB), true)
        else p) (acc, false)).1) := by
    refine foldl_invariant (fun p : DataFrame × Bool => JoinInv df other p.1)
      _ _ _ hacc (fun p j hq => ?_)
    dsimp only
    split
    · exact JoinInv_append hq mergeRows_rowAt_names
    · exact hq
  dsimp only
  split
  · exact hp
  · exact JoinInv_append hp rowAt_left_names

theorem RightJoin_inv (df other : DataFrame) (key : String) :
    JoinInv df other ((List.range other.Nrows).foldl (fun acc i =>
      let rowB := other.rowAt i
      let p := (List.range df.Nrows).foldl (fun (p : DataFrame × Bool) j =>
        let rowA := df.rowAt j
        if rowGet rowB key = rowGet rowA key then
          (AppendRow p.1 (mergeRows rowA rowB), true)
        else p) (acc, false)
      if p.2 then p.1 else AppendRow p.1 rowB) (appendCols df other)) := by
  refine foldl_invariant _ _ _ _ (JoinInv_init df other) (fun acc i hacc => ?_)
  have hp : JoinInv df other (((List.range df.Nrows).foldl
      (fun (p : DataFrame × Bool) j =>
        let rowA := df.rowAt j
        if rowGet (other.rowAt i) key = rowGet rowA key then
          (AppendRow p.1 (mergeRows rowA (other.rowAt i)), true)
        else p) (acc, false)).1) := by
    refine foldl_invariant (fun p : DataFrame × Bool => JoinInv df other p.1)
      _ _ _ hacc (fun p j hq => ?_)
    dsimp only
    split
    · exact JoinInv_append hq mergeRows_rowAt_names
    · exact hq
  dsimp only
  split
  · exact hp
  · exact JoinInv_append hp rowAt_right_names

theorem OuterJoin_inv (df other : DataFrame) (key : String) :
    JoinInv df other
      (let lp := (List.range df.Nrows).foldl
        (fun (st : DataFrame × List GoValue) i =>
          let rowA := df.rowAt i
          let q := (List.range other.Nrows).foldl
            (fun (q : DataFrame × List GoValue × Bool) j =>
              let rowB := other.rowAt j
              if rowGet rowA key = rowGet rowB key then
                (AppendRow q.1 (mergeRows rowA rowB),
                 q.2.1 ++ [rowGet rowA key], true)
              else q) (st.1, st.2, false)
          if q.2.2 then (q.1, q.2.1) else (AppendRow q.1 rowA, q.2.1))
        (appendCols df other, [])
      (List.range other.Nrows).foldl (fun acc i =>
        let rowB := other.rowAt i
        if rowGet rowB key ∈ lp.2 then acc
        else AppendRow acc rowB) lp.1) := by
  have hlp : ∀ lp1 : DataFrame × List GoValue,
      JoinInv df other lp1.1 →
      JoinInv df other (((List.range other.Nrows).foldl (fun acc i =>
        let rowB := other.rowAt i
        if rowGet rowB key ∈ lp1.2 then acc
        else AppendRow acc rowB) lp1.1)) := by
    intro lp1 h1
    refine foldl_invariant _ _ _ _ h1 (fun acc i hacc => ?_)
    dsimp only
    split
    · exact hacc
    · exact JoinInv_append hacc rowAt_right_names
  refine hlp _ ?_
  refine foldl_invariant (fun st : DataFrame × List GoValue => JoinInv df other st.1)
    _ _ _ (JoinInv_init df other) (fun st i hst => ?_)
  have hq : JoinInv df other (((List.range other.Nrows).foldl
      (fun (q : DataFrame × List GoValue × Bool) j =>
        let rowB := other.rowAt j
        if rowGet (df.rowAt i) key = rowGet rowB key then
          (AppendRow q.1 (mergeRows (df.rowAt i) rowB),
           q.2.1 ++ [rowGet (df.rowAt i) key], true)
        else q) (st.1, st.2, false)).1) := by
    refine foldl_invariant
      (fun q : DataFrame × List GoValue × Bool => JoinInv df other q.1)
      _ _ _ hst (fun q j hq2 => ?_)
    dsimp only
    split
    · exact JoinInv_append hq2 mergeRows_rowAt_names
    · exact hq2
  dsimp only
  split
  · exact hq
  · exact JoinInv_append hq rowAt_left_names

end Dataframe

namespace Dataframe

theorem sumAddCols_names {rows : List Row} :
    ∀ {colNames : List String} {df df' : DataFrame},
      sumAddCols rows colNames df = .ok df' →
      ∀ c ∈ df'.cols, c ∈ df.cols ∨ c.name ∈ colNames := by
  intro colNames
  induction colNames with
  | nil =>
    intro df df' h c hc
    rw [sumAddCols] at h
    cases h
    exact Or.inl hc
  | cons n rest ih =>
    intro df df' h c hc
    rw [sumAddCols] at h
    cases hadd : AddColumn df ⟨n, [GoValue.float (sumColumn rows n)]⟩ with
    | error e => rw [hadd] at h; cases h
    | ok df2 =>
      rw [hadd] at h
      rcases ih h c hc with hc2 | hr
      · unfold AddColumn at hadd
        split at hadd
        · cases hadd
        · cases hadd
          rcases List.mem_append.mp hc2 with hin | hnew
          · exact Or.inl hin
          · right
            rw [List.mem_singleton.mp hnew]
            exact List.mem_cons_self _ _
      · exact Or.inr (List.mem_cons_of_mem _ hr)

theorem sumGroups_names :
    ∀ {groups : List (GoValue × List Row)} {colNames : List String}
      {df df' : DataFrame},
      sumGroups groups colNames df = .ok df' →
      ∀ c ∈ df'.cols, c ∈ df.cols ∨ c.name ∈ colNames := by
  intro groups
  induction groups with
  | nil =>
    intro colNames df df' h c hc
    rw [sumGroups] at h
    cases h
    exact Or.inl hc
  | cons g rest ih =>
    intro colNames df df' h c hc
    rw [sumGroups] at h
    by_cases hemp : colNames.isEmpty
    · rw [if_pos hemp] at h
      exact ih h c hc
    · rw [if_neg hemp] at h
      cases hadd : sumAddCols g.2 colNames df with
      | error e => rw [hadd] at h; cases h
      | ok df2 =>
        rw [hadd] at h
        rcases ih h c hc with hc2 | hr
        · exact sumAddCols_names hadd c hc2
        · exact Or.inr hr

/-- A successful `Sum` only ever holds columns named by the requested
aggregation columns — in particular it never contains a `GroupKey`
column. -/
theorem Sum_cols_named {gdf : GroupedDataFrame} {colNames : List String}
    {df' : DataFrame} (h : Sum gdf colNames = .ok df') :
    ∀ c ∈ df'.cols, c.name ∈ colNames := by
  unfold Sum at h
  cases herr : gdf.Err with
  | some e => rw [herr] at h; cases h
  | none =>
    rw [herr] at h
    intro c hc
    rcases sumGroups_names h c hc with hin | hr
    · cases hin
    · exact hr

theorem batchRangesFrom_length (nRows batchSize : Nat) (hb : 0 < batchSize) :
    ∀ fuel start, nRows - start ≤ fuel →
      (batchRangesFrom nRows batchSize fuel start).length =
        (nRows - start + batchSize - 1) / batchSize := by
  intro fuel
  induction fuel with
  | zero =>
    intro start hf
    rw [batchRangesFrom]
    have e : nRows - start = 0 := by omega
    rw [e, List.length_nil, Nat.div_eq_of_lt (by omega)]
  | succ fuel ih =>
    intro start hf
    rw [batchRangesFrom]
    by_cases h : start < nRows
    · rw [if_pos ⟨h, hb⟩, List.length_cons, ih (start + batchSize) (by omega)]
      by_cases hMb : batchSize ≤ nRows - start
      · have e1 : nRows - (start + batchSize) + batchSize - 1 = nRows - start - 1 := by
          omega
        have e2 : nRows - start + batchSize - 1 = (nRows - start - 1) + batchSize := by
          omega
        rw [e1, e2, Nat.add_div_right _ hb]
      · have e1 : nRows - (start + batchSize) + batchSize - 1 = batchSize - 1 := by
          omega
        rw [e1, Nat.div_eq_of_lt (by omega)]
        have : (nRows - start + batchSize - 1) / batchSize = 1 := by
          refine Nat.div_eq_of_lt_le (by omega) (by omega)
        omega
    · rw [if_neg (by omega)]
      have e : nRows - start = 0 := by omega
      rw [e, List.length_nil, Nat.div_eq_of_lt (by omega)]

theorem batchRanges_length (nRows batchSize : Nat) (hb : 0 < batchSize) :
    (batchRanges nRows batchSize).length = (nRows + batchSize - 1) / batchSize := by
  rw [batchRanges, batchRangesFrom_length nRows batchSize hb nRows 0 (by omega),
    Nat.sub_zero]

theorem innerPlaceholderFold (nCols : Nat) :
    ∀ (start : Nat) (acc : List Nat),
      (List.range nCols).foldl
          (fun (r : List Nat × Nat) _ => (r.1 ++ [r.2], r.2 + 1)) (acc, start) =
        (acc ++ List.range' start nCols, start + nCols) := by
  induction nCols with
  | zero => intro start acc; simp
  | succ m ih =>
    intro start acc
    rw [List.range_succ, List.foldl_append, ih]
    have hc : List.range' start (m + 1) = List.range' start m ++ [start + m] := by
      simpa using @List.range'_concat 1 start m
    simp [hc]
    omega

theorem outerPlaceholderFold (nCols : Nat) :
    ∀ (nRows start : Nat) (accRows : List (List Nat)),
      (List.range nRows).foldl (fun (st : List (List Nat) × Nat) _ =>
          let inner := (List.range nCols).foldl
            (fun (r : List Nat × Nat) _ => (r.1 ++ [r.2], r.2 + 1)) ([], st.2)
          (st.1 ++ [inner.1], inner.2)) (accRows, start) =
        (accRows ++
          (List.range nRows).map (fun k => List.range' (start + k * nCols) nCols),
         start + nRows * nCols) := by
  intro nRows
  induction nRows with
  | zero => intro start accRows; simp
  | succ m ih =>
    intro start accRows
    rw [List.range_succ, List.foldl_append, ih, List.map_append]
    simp only [List.foldl_cons, List.foldl_nil,
      innerPlaceholderFold nCols (start + m * nCols) [], List.nil_append,
      List.map_cons, List.map_nil]
    rw [Prod.mk.injEq]
    exact ⟨by rw [List.append_assoc], by ring⟩

theorem joinRowBlocks (nCols : Nat) :
    ∀ (n start : Nat),
      ((List.range n).map (fun k => List.range' (start + k * nCols) nCols)).flatten =
        List.range' start (n * nCols) := by
  intro n
  induction n with
  | zero => intro start; simp
  | succ m ih =>
    intro start
    rw [List.range_succ, List.map_append, List.flatten_append, ih]
    have happ := List.range'_append start (m * nCols) nCols 1
    simp only [one_mul] at happ
    have hm : (m + 1) * nCols = nCols + m * nCols := by ring
    simp [happ, hm]

/-- The placeholder indices of one chunk, flattened across rows, are
exactly `1, 2, …, nRows*nCols`: 1-based and consecutive, never resetting
at a row boundary. -/
theorem insertBatchPlaceholderRows_flatten (nRows nCols : Nat) :
    (insertBatchPlaceholderRows nRows nCols).flatten =
      List.range' 1 (nRows * nCols) := by
  rw [insertBatchPlaceholderRows, outerPlaceholderFold]
  simp [joinRowBlocks]

end Dataframe

instance {ε α : Type _} [DecidableEq ε] [DecidableEq α] :
    DecidableEq (Except ε α) := fun a b =>
  match a, b with
  | .ok x, .ok y =>
    decidable_of_iff (x = y) ⟨fun h => h ▸ rfl, fun h => by cases h; rfl⟩
  | .ok _, .error _ => isFalse (fun h => by cases h)
  | .error _, .ok _ => isFalse (fun h => by cases h)
  | .error e1, .error e2 =>
    decidable_of_iff (e1 = e2) ⟨fun h => h ▸ rfl, fun h => by cases h; rfl⟩

/-- The §3 invariant on a fallible join result: a successful result is a
well-formed column store (errors carry no frame to check). -/
def okWF : Except String DataFrame → Prop
  | .ok d => wfDF d
  | .error _ => True

instance (e : Except String DataFrame) : Decidable (okWF e) :=
  match e with
  | .ok d => (inferInstance : Decidable (wfDF d))
  | .error _ => isTrue trivial

/-- The row count of a successful join result. -/
def nrowsOfResult (e : Except String DataFrame) : Option Nat :=
  e.toOption.map DataFrame.Nrows

/-- The effective `CreateTable` option after the defaults merge is `true`
for every caller-supplied option list. -/
theorem applyWriteDefaults_CreateTable (options : List Dataframe.SQLWriteOption) :
    (Dataframe.applyWriteDefaults options).CreateTable = true := by
  cases options <;> rfl

/-! ## Concrete frames used by the claims -/

/-- Left input of the §8 join-count law: `{id:[1,2,3]}`. -/
def dfJ3L : DataFrame := ⟨[⟨"id", [.int 1, .int 2, .int 3]⟩]⟩

/-- Right input of the §8 join-count law: `{id:[2,3,4]}`. -/
def dfJ3R : DataFrame := ⟨[⟨"id", [.int 2, .int 3, .int 4]⟩]⟩

/-- Left input with a private column, as in `TestDataFrameJoin`. -/
def dfJ2L : DataFrame :=
  ⟨[⟨"id", [.int 1, .int 2, .int 3]⟩,
    ⟨"value1", [.str "A", .str "B", .str "C"]⟩]⟩

/-- Right input with a private column, as in `TestDataFrameJoin`. -/
def dfJ2R : DataFrame :=
  ⟨[⟨"id", [.int 2, .int 3, .int 4]⟩,
    ⟨"value2", [.str "X", .str "Y", .str "Z"]⟩]⟩

/-- A one-row left frame whose row has no match on the right. -/
def dfC1L : DataFrame := ⟨[⟨"id", [.int 1]⟩, ⟨"v", [.str "A"]⟩]⟩

/-- A one-row right frame with a column the left side lacks. -/
def dfC1R : DataFrame := ⟨[⟨"id", [.int 2]⟩, ⟨"w", [.str "B"]⟩]⟩

/-- What `Join(dfC1L, dfC1R, "id", "left")` actually produces: the
unmatched left row went in, but column `w` received nothing. -/
def dfC1Bad : DataFrame :=
  ⟨[⟨"id", [.int 1]⟩, ⟨"v", [.str "A"]⟩, ⟨"w", []⟩]⟩

/-- The §8 grouping fixture:
`[{dept:IT,score:500},{dept:HR,score:300},{dept:IT,score:700}]`. -/
def dfGroup : DataFrame :=
  ⟨[⟨"dept", [.str "IT", .str "HR", .str "IT"]⟩,
    ⟨"score", [.int 500, .int 300, .int 700]⟩]⟩

/-- The composite-key grouping fixture from `TestGroupBy/groupByList`. -/
def dfGroup3 : DataFrame :=
  ⟨[⟨"name", [.str "Bob", .str "Tim", .str "Sam"]⟩,
    ⟨"dept", [.str "IT", .str "HR", .str "IT"]⟩,
    ⟨"salary", [.int 600, .int 700, .int 600]⟩]⟩

/-- A hand-built grouped result with one group and no rows, on which `Sum`
succeeds (mirroring the repo's `TestSum`, which also hand-builds a
`GroupedDataFrame`). -/
def gdfOneGroup : Dataframe.GroupedDataFrame :=
  ⟨[(GoValue.str "IT", [])], "dept", none⟩

/-- The duplicate-column fixture of `TestDataFrameAddDropColumn`. -/
def dfAddCol : DataFrame := ⟨[⟨"intColumn", [.int 1, .int 2, .int 3]⟩]⟩

/-- A second column with the same name and different data. -/
def colDup : Column := ⟨"intColumn", [.int 9]⟩

/-- A two-row frame fed to the write bridge. -/
def dfWrite : DataFrame := ⟨[⟨"id", [.int 1, .int 2]⟩]⟩

/-! ## The claims -/

/-- C1 (amended): the `AppendRow`-based join variants (`InnerJoin`,
`LeftJoin`, `RightJoin`, `OuterJoin` of the dataframe package) create
output columns on demand, backfill the absent marker into every existing
output column a row does not supply, and so keep all output columns equal
length after every append — the §3 invariant holds for every join result.
The legacy `Join` of dataframe.go does **not** backfill (see the
counterexample), which is the correction to the claim. -/
theorem C1_joins_backfill_and_preserve_lengths :
    (∀ (d : DataFrame) (r : Row) (L : Nat),
        (∀ a ∈ rowNames r, a ∈ d.colNames) → uniformH d L →
        (Dataframe.AppendRow d r).colNames = d.colNames ∧
          uniformH (Dataframe.AppendRow d r) (L + 1)) ∧
    (∀ (df other : DataFrame) (key : String), wfDF df → wfDF other →
        okWF (Dataframe.InnerJoin df other key) ∧
        okWF (Dataframe.LeftJoin df other key) ∧
        okWF (Dataframe.RightJoin df other key) ∧
        okWF (Dataframe.OuterJoin df other key)) := by
  constructor
  · intro d r L hn hu
    exact Dataframe.AppendRow_uniform hn hu
  · intro df other key _ _
    refine ⟨?_, ?_, ?_, ?_⟩
    · unfold Dataframe.InnerJoin
      cases h : Dataframe.checkExists df other key
      · exact Dataframe.JoinInv_wf (Dataframe.InnerJoin_inv df other key)
      · exact trivial
    · unfold Dataframe.LeftJoin
      cases h : Dataframe.checkExists df other key
      · exact Dataframe.JoinInv_wf (Dataframe.LeftJoin_inv df other key)
      · exact trivial
    · unfold Dataframe.RightJoin
      cases h : Dataframe.checkExists df other key
      · exact Dataframe.JoinInv_wf (Dataframe.RightJoin_inv df other key)
      · exact trivial
    · unfold Dataframe.OuterJoin
      cases h : Dataframe.checkExists df other key
      · exact Dataframe.JoinInv_wf (Dataframe.OuterJoin_inv df other key)
      · exact trivial

/-- C1 counterexample: the claim is false for the cited
`Join`/`appendRowToDataFrame` (dataframe.go): a left join whose unmatched
left row lacks the right-only column `w` appends nothing to `w`, leaving it
shorter than its siblings — no backfill, invariant broken. -/
theorem C1_counterexample :
    Goframe.Join dfC1L dfC1R "id" "left" = .ok dfC1Bad ∧ ¬ wfDF dfC1Bad :=
  ⟨rfl, by decide⟩

/-- C1 witness: the amended theorem applied to the concrete
`TestDataFrameJoin` frames. -/
theorem C1_witness :
    wfDF dfJ2L ∧ wfDF dfJ2R ∧ okWF (Dataframe.LeftJoin dfJ2L dfJ2R "id") :=
  ⟨by decide, by decide,
    (C1_joins_backfill_and_preserve_lengths.2 dfJ2L dfJ2R "id"
      (by decide) (by decide)).2.1⟩

/-- C2: the claim describes a grouped `Sum` that emits a `GroupKey` column
with first-seen key order and one value per group; the code in
dataframe/groupby.go instead adds one single-value column per requested
name *per group* into one flat result and never creates a `GroupKey`
column, so on the §8 fixture the second group's `AddColumn` hits the
duplicate-name check and the whole call errors — contradicting the repo's
own `TestGroupBy/Sum` expectations (a code bug). -/
theorem C2_grouped_sum_shape :
    (∀ (gdf : Dataframe.GroupedDataFrame) (cols : List String)
        (df' : DataFrame),
        Dataframe.Sum gdf cols = .ok df' → ∀ c ∈ df'.cols, c.name ∈ cols) ∧
    Dataframe.Sum (Dataframe.Groupby dfGroup (.str "dept")) ["score"] =
      .error "failed to add column 'score': Column 'score' already exists" :=
  ⟨fun _ _ _ h => Dataframe.Sum_cols_named h, by decide⟩

/-- C2 witness: on a one-group grouped result `Sum` succeeds and the
general part of the theorem confirms the result's only column is the
requested one (in particular, not `GroupKey`). -/
theorem C2_witness :
    Dataframe.Sum gdfOneGroup ["score"] = .ok ⟨[⟨"score", [.float 0]⟩]⟩ ∧
    ("score" : String) ∈ (["score"] : List String) :=
  ⟨by decide,
    C2_grouped_sum_shape.1 gdfOneGroup ["score"]
      ⟨[⟨"score", [.float 0]⟩]⟩ (by decide) ⟨"score", [.float 0]⟩ (by decide)⟩

/-- C3: the claim says `Groupby` supports `[]string` composite keys and
rejects every other key shape; in the code the `[]string`, `Series`,
`map[string]string` and function arms are all unimplemented stubs that
return an *empty group map with a nil error* (only genuinely unknown types
error), contradicting the repo's own `TestGroupBy/groupByList` (a code
bug). -/
theorem C3_groupby_stub_cases :
    (∀ (df : DataFrame) (l : List String),
        Dataframe.Groupby df (.strList l) =
          Dataframe.GroupedDataFrame.mk [] "" none) ∧
    Dataframe.Groupby dfGroup3 (.strList ["dept", "salary"]) =
      Dataframe.GroupedDataFrame.mk [] "" none ∧
    Dataframe.Groupby dfGroup3 .series =
      Dataframe.GroupedDataFrame.mk [] "" none ∧
    Dataframe.Groupby dfGroup3 (.other "int") =
      Dataframe.GroupedDataFrame.mk [] ""
        (some "unsupported groupby key type: int") :=
  ⟨fun _ _ => rfl, rfl, rfl, rfl⟩

/-- C4: on `left={id:[1,2,3]}`, `right={id:[2,3,4]}` joined on `id`, the
cited `Join` yields 2 inner, 3 left, 3 right and 4 outer rows; and for
every pair of inputs and every join type, a key column missing from the
first (resp. second) input fails with the exact
`key column does not exist` error, before any result is built. -/
theorem C4_join_counts_and_key_errors :
    (∀ (df other : DataFrame) (key joinType : String),
        df.hasCol key = false →
        Goframe.Join df other key joinType =
          .error ("key column '" ++ key ++
            "' does not exist in the first DataFrame")) ∧
    (∀ (df other : DataFrame) (key joinType : String),
        df.hasCol key = true → other.hasCol key = false →
        Goframe.Join df other key joinType =
          .error ("key column '" ++ key ++
            "' does not exist in the second DataFrame")) ∧
    nrowsOfResult (Goframe.Join dfJ3L dfJ3R "id" "inner") = some 2 ∧
    nrowsOfResult (Goframe.Join dfJ3L dfJ3R "id" "left") = some 3 ∧
    nrowsOfResult (Goframe.Join dfJ3L dfJ3R "id" "right") = some 3 ∧
    nrowsOfResult (Goframe.Join dfJ3L dfJ3R "id" "outer") = some 4 := by
  refine ⟨?_, ?_, rfl, rfl, rfl, rfl⟩
  · intro df other key joinType h
    simp [Goframe.Join, h]
  · intro df other key joinType h1 h2
    simp [Goframe.Join, h1, h2]

/-- C4 witness: the missing-key error at a concrete input. -/
theorem C4_witness :
    dfJ3L.hasCol "nokey" = false ∧
    Goframe.Join dfJ3L dfJ3R "nokey" "inner" =
      .error "key column 'nokey' does not exist in the first DataFrame" :=
  ⟨by decide,
    C4_join_counts_and_key_errors.1 dfJ3L dfJ3R "nokey" "inner" (by decide)⟩

/-- C5 (amended): NULL handling on SQL reads — `"nil"` yields the absent
marker; `"zero"` yields the column type's zero value for string, integer,
float and boolean columns, but for **timestamp** columns it too yields the
absent marker (the code deliberately refuses a zero `time.Time`), which is
the correction to the claim; `"skip_row"` drops exactly the rows with a
NULL cell and keeps the rest intact; a column-default map substitutes the
mapped value when the column is a key and the absent marker otherwise; an
unknown handler string or a handler of any other type is a hard error. -/
theorem C5_null_handling :
    (∀ (colName : String) (dest : Dataframe.ScanDest), dest.isNull = true →
        Dataframe.extractValue dest colName (.str "nil") = .ok .null) ∧
    (∀ colName : String,
        Dataframe.extractValue (.nullString none) colName (.str "zero") =
          .ok (.str "") ∧
        Dataframe.extractValue (.nullInt64 none) colName (.str "zero") =
          .ok (.int 0) ∧
        Dataframe.extractValue (.nullFloat64 none) colName (.str "zero") =
          .ok (.float 0) ∧
        Dataframe.extractValue (.nullBool none) colName (.str "zero") =
          .ok (.bool false) ∧
        Dataframe.extractValue (.nullTime none) colName (.str "zero") =
          .ok .null) ∧
    (∀ cols : List (String × Dataframe.ScanDest),
        (∃ p ∈ cols, p.2.isNull = true) →
        Dataframe.processRow cols (.str "skip_row") = .ok none) ∧
    (∀ cols : List (String × Dataframe.ScanDest),
        (∀ p ∈ cols, p.2.isNull = false) →
        Dataframe.processRow cols (.str "skip_row") =
          .ok (some (cols.map (fun p => p.2.value)))) ∧
    (∀ (colName : String) (m : List (String × GoValue))
        (dest : Dataframe.ScanDest), dest.isNull = true →
        Dataframe.extractValue dest colName (.map m) =
          .ok ((m.find? (fun p => p.1 == colName)).elim GoValue.null
            (fun p => p.2))) ∧
    (∀ (colName s : String) (dest : Dataframe.ScanDest), dest.isNull = true →
        s ∉ (["nil", "zero", "skip_row"] : List String) →
        Dataframe.extractValue dest colName (.str s) =
          .error ("unknown null handler: " ++ s)) ∧
    (∀ (colName t : String) (dest : Dataframe.ScanDest), dest.isNull = true →
        Dataframe.extractValue dest colName (.invalid t) =
          .error ("invalid null handler type: " ++ t)) := by
  refine ⟨?_, ?_, ?_, ?_, ?_, ?_, ?_⟩
  · intro colName dest h
    simp [Dataframe.extractValue, Dataframe.handleNull, h]
  · intro colName
    exact ⟨rfl, rfl, rfl, rfl, rfl⟩
  · intro cols
    induction cols with
    | nil => rintro ⟨q, hq, _⟩; cases hq
    | cons p rest ih =>
      rintro ⟨q, hq, hnull⟩
      rcases List.mem_cons.mp hq with he | hmem
      · subst he
        simp [Dataframe.processRow, Dataframe.extractValue,
          Dataframe.handleNull, hnull]
      · by_cases hp : p.2.isNull = true
        · simp [Dataframe.processRow, Dataframe.extractValue,
            Dataframe.handleNull, hp]
        · simp [Dataframe.processRow, Dataframe.extractValue,
            Dataframe.handleNull, hp, ih ⟨q, hmem, hnull⟩]
  · intro cols
    induction cols with
    | nil => intro _; rfl
    | cons p rest ih =>
      intro hall
      have hp : p.2.isNull = false := hall p (List.mem_cons_self p rest)
      simp [Dataframe.processRow, Dataframe.extractValue, hp,
        ih (fun q hq => hall q (List.mem_cons_of_mem p hq))]
  · intro colName m dest h
    simp only [Dataframe.extractValue, h, if_true]
    cases hf : m.find? (fun p => p.1 == colName) <;>
      simp [Dataframe.handleNull, hf]
  · intro colName s dest h hs
    have h1 : s ≠ "nil" := fun e => hs (by simp [e])
    have h2 : s ≠ "zero" := fun e => hs (by simp [e])
    have h3 : s ≠ "skip_row" := fun e => hs (by simp [e])
    simp only [Dataframe.extractValue, h, if_true]
    unfold Dataframe.handleNull
    split <;> simp_all
  · intro colName t dest h
    simp [Dataframe.extractValue, Dataframe.handleNull, h]

/-- C5 counterexample: the claim's "zero value of the column's type **for
every column type, including timestamp columns**" is false — a NULL
timestamp cell under the `"zero"` handler becomes the absent marker, not a
timestamp value. -/
theorem C5_counterexample :
    Dataframe.extractValue (.nullTime none) "created" (.str "zero") =
      .ok GoValue.null ∧
    GoValue.null ≠ GoValue.time ⟨0, 0⟩ :=
  ⟨rfl, by decide⟩

/-- C5 witness: the amended theorem applied at concrete NULL cells. -/
theorem C5_witness :
    (Dataframe.ScanDest.nullString none).isNull = true ∧
    Dataframe.extractValue (.nullString none) "name" (.str "nil") =
      .ok .null ∧
    ("bogus" : String) ∉ (["nil", "zero", "skip_row"] : List String) ∧
    Dataframe.extractValue (.nullString none) "name" (.str "bogus") =
      .error "unknown null handler: bogus" :=
  ⟨by decide,
    C5_null_handling.1 "name" (.nullString none) (by decide),
    by decide,
    C5_null_handling.2.2.2.2.2.1 "name" "bogus" (.nullString none)
      (by decide) (by decide)⟩

/-- C6 (amended): the effective batch size is 1000 when the caller passes
no options or an explicit zero (a zero `BatchSize` is indistinguishable
from "not set" in the options struct and silently gets the default — the
correction to the claim); an explicitly *negative* batch size is a hard
validation error raised before the table-existence check and before any
table mutation; a positive batch size is taken as given. -/
theorem C6_batchsize_rules :
    (∀ (df : DataFrame) (t : String) (opt : Dataframe.SQLWriteOption)
        (tableExists : Bool),
        (opt.IfExists = "" ∨
          opt.IfExists ∈ (["fail", "replace", "append"] : List String)) →
        opt.BatchSize < 0 →
        Dataframe.ToSQLTxContext df t [opt] tableExists =
          .error ("BatchSize must be greater than 0, got " ++
            toString opt.BatchSize)) ∧
    (Dataframe.applyWriteDefaults []).BatchSize = 1000 ∧
    (∀ opt : Dataframe.SQLWriteOption, opt.BatchSize = 0 →
        (Dataframe.applyWriteDefaults [opt]).BatchSize = 1000) ∧
    (∀ opt : Dataframe.SQLWriteOption, 0 < opt.BatchSize →
        (Dataframe.applyWriteDefaults [opt]).BatchSize = opt.BatchSize) := by
  refine ⟨?_, rfl, ?_, ?_⟩
  · intro df t opt tableExists hif hneg
    have h1 : ¬(opt.IfExists ≠ "" ∧
        opt.IfExists ∉ (["fail", "replace", "append"] : List String)) := by
      rcases hif with h | h
      · exact fun hc => hc.1 h
      · exact fun hc => hc.2 h
    have h2 : opt.BatchSize ≠ 0 ∧ opt.BatchSize ≤ 0 := ⟨by omega, by omega⟩
    simp only [Dataframe.ToSQLTxContext, Dataframe.validateWriteOptions]
    rw [if_neg h1, if_pos h2]
  · intro opt h
    simp [Dataframe.applyWriteDefaults, h]
  · intro opt h
    simp [Dataframe.applyWriteDefaults, h]

/-- C6 counterexample: an explicitly-set zero batch size does **not**
error — the write proceeds with the default 1000 — refuting the claim's
"negative or zero … causes a hard validation error". -/
theorem C6_counterexample :
    Dataframe.ToSQLTxContext dfWrite "t" [{ BatchSize := 0 }] false =
      .ok [.checkExists "t", .createTable "t", .insertChunk 0 2] ∧
    (Dataframe.applyWriteDefaults [{ BatchSize := 0 }]).BatchSize = 1000 :=
  ⟨by decide, by decide⟩

/-- C6 witness: the negative-batch-size error at a concrete input. -/
theorem C6_witness :
    (({ BatchSize := -5 } : Dataframe.SQLWriteOption).IfExists = "" ∨
      ({ BatchSize := -5 } : Dataframe.SQLWriteOption).IfExists ∈
        (["fail", "replace", "append"] : List String)) ∧
    ({ BatchSize := -5 } : Dataframe.SQLWriteOption).BatchSize < 0 ∧
    Dataframe.ToSQLTxContext dfWrite "t" [{ BatchSize := -5 }] false =
      .error "BatchSize must be greater than 0, got -5" :=
  ⟨Or.inl rfl, by decide,
    C6_batchsize_rules.1 dfWrite "t" { BatchSize := -5 } false
      (Or.inl rfl) (by decide)⟩

/-- C7: a batched write of `N` rows with batch size `b > 0` issues exactly
`⌈N/b⌉` chunks — 5 for 5000 rows at 1000, `N` at batch size 1, and exactly
1 whenever `b ≥ N > 0` — and within one chunk the indices handed to the
dialect's `Placeholder` are `1, 2, …, rows*cols`, consecutive across the
whole chunk with no reset at row boundaries; the default write path
issues exactly the per-chunk INSERTs after the existence check and CREATE
TABLE. -/
theorem C7_batch_partitioning :
    (∀ N b : Nat, 0 < b →
        (Dataframe.batchRanges N b).length = (N + b - 1) / b) ∧
    (Dataframe.batchRanges 5000 1000).length = 5 ∧
    (∀ N : Nat, (Dataframe.batchRanges N 1).length = N) ∧
    (∀ N b : Nat, 0 < N → N ≤ b → (Dataframe.batchRanges N b).length = 1) ∧
    (∀ n m : Nat, (Dataframe.insertBatchPlaceholderRows n m).flatten =
        List.range' 1 (n * m)) ∧
    (∀ (df : DataFrame) (t : String),
        Dataframe.ToSQLTxContext df t [] false =
          .ok ([.checkExists t, .createTable t] ++
            (Dataframe.batchRanges df.Nrows 1000).map
              (fun p => .insertChunk p.1 p.2))) := by
  refine ⟨Dataframe.batchRanges_length, ?_, ?_, ?_,
    Dataframe.insertBatchPlaceholderRows_flatten, ?_⟩
  · rw [Dataframe.batchRanges_length 5000 1000 (by omega)]
  · intro N
    rw [Dataframe.batchRanges_length N 1 (by omega)]
    omega
  · intro N b hN hNb
    rw [Dataframe.batchRanges_length N b (by omega)]
    exact Nat.div_eq_of_lt_le (by omega) (by omega)
  · intro df t
    simp only [Dataframe.ToSQLTxContext, Dataframe.validateWriteOptions,
      Dataframe.applyWriteDefaults, Dataframe.selectDialect]
    by_cases h0 : df.Nrows = 0
    · simp [h0, Dataframe.batchRanges, Dataframe.batchRangesFrom]
    · simp [h0]

/-- C7 witness: the chunk-count law at the §8 numbers. -/
theorem C7_witness :
    0 < 1000 ∧ (Dataframe.batchRanges 5000 1000).length = (5000 + 1000 - 1) / 1000 :=
  ⟨by decide, C7_batch_partitioning.1 5000 1000 (by decide)⟩

/-- C8: a float date value is treated as Unix milliseconds exactly when its
magnitude exceeds `1e12` and otherwise split by `math.Modf` into whole
Unix seconds plus a rounded nanosecond remainder; concretely,
`1705317000.5` parses to second 1705317000 with a 500,000,000ns component,
and `1705317000500` parses as milliseconds to the same whole second. -/
theorem C8_float_date_heuristic :
    (∀ v : ℚ, 1000000000000 < |v| →
        Dataframe.timeFromFloat64 v =
          Dataframe.timeUnixMilli (Dataframe.truncQ v)) ∧
    (∀ v : ℚ, |v| ≤ 1000000000000 →
        Dataframe.timeFromFloat64 v =
          Dataframe.timeUnix (Dataframe.truncQ v)
            (Dataframe.roundQ ((v - Dataframe.truncQ v) * 1000000000))) ∧
    Dataframe.timeFromFloat64 (1705317000 + 1/2) = ⟨1705317000, 500000000⟩ ∧
    Dataframe.timeFromFloat64 1705317000500 = ⟨1705317000, 500000000⟩ := by
  refine ⟨?_, ?_, ?_, ?_⟩
  · intro v h
    simp only [Dataframe.timeFromFloat64]
    rcases lt_abs.mp h with h1 | h1
    · rw [if_pos (Or.inl h1)]
    · rw [if_pos (Or.inr (by linarith))]
  · intro v h
    obtain ⟨hl, hr⟩ := abs_le.mp h
    simp only [Dataframe.timeFromFloat64]
    rw [if_neg (by rintro (hc | hc) <;> linarith)]
  · have h2 : Dataframe.truncQ (1705317000 + 1/2) = 1705317000 := by
      rw [Dataframe.truncQ, if_pos (by norm_num)]
      norm_num
    simp only [Dataframe.timeFromFloat64]
    rw [if_neg (by norm_num), h2]
    have h3 : Dataframe.roundQ
        ((1705317000 + 1/2 - ((1705317000 : Int) : ℚ)) * 1000000000) =
          500000000 := by
      have e : ((1705317000 + 1/2 : ℚ) - ((1705317000 : Int) : ℚ)) *
          1000000000 = 500000000 + 1/2 - 1/2 := by norm_num
      rw [e, Dataframe.roundQ, if_pos (by norm_num), Dataframe.truncQ,
        if_pos (by norm_num)]
      norm_num
    rw [h3]
    decide
  · have h2 : Dataframe.truncQ 1705317000500 = 1705317000500 := by
      rw [Dataframe.truncQ, if_pos (by norm_num)]
      norm_num
    simp only [Dataframe.timeFromFloat64]
    rw [if_pos (by norm_num), h2]
    decide

/-- C8 witness: the magnitude branch applied at the millisecond input. -/
theorem C8_witness :
    (1000000000000 : ℚ) < |(1705317000500 : ℚ)| ∧
    Dataframe.timeFromFloat64 1705317000500 =
      Dataframe.timeUnixMilli (Dataframe.truncQ 1705317000500) :=
  ⟨by decide, C8_float_date_heuristic.1 1705317000500 (by decide)⟩

/-- C9: the claim says duplicate column names are rejected at insertion;
the cited `AddColumn` (dataframe.go:59) instead silently replaces the
stored column and returns no error, contradicting the repo's own
`TestDataFrameAddDropColumn` (a code bug); the dataframe-package
`AddColumn` (dataframe/plotting.go:427) does reject the duplicate. -/
theorem C9_addcolumn_duplicate :
    Goframe.AddColumn dfAddCol colDup = .ok ⟨[colDup]⟩ ∧
    (⟨[colDup]⟩ : DataFrame) ≠ dfAddCol ∧
    Dataframe.AddColumn dfAddCol colDup =
      .error "Column 'intColumn' already exists" :=
  ⟨by decide, by decide, by decide⟩

/-- C10: the defaults merge never copies the caller's `CreateTable` field,
so the effective value is always `true` and every successful write against
a missing table issues a CREATE TABLE — auto-creation cannot be disabled
through the option. -/
theorem C10_createtable_not_overridable :
    (∀ options : List Dataframe.SQLWriteOption,
        (Dataframe.applyWriteDefaults options).CreateTable = true) ∧
    (∀ (df : DataFrame) (t : String) (options : List Dataframe.SQLWriteOption)
        (acts : List Dataframe.SQLAction),
        Dataframe.ToSQLTxContext df t options false = .ok acts →
        Dataframe.SQLAction.createTable t ∈ acts) := by
  refine ⟨applyWriteDefaults_CreateTable, ?_⟩
  intro df t options acts h
  unfold Dataframe.ToSQLTxContext at h
  cases hv : Dataframe.validateWriteOptions options with
  | some e => rw [hv] at h; cases h
  | none =>
    rw [hv] at h
    dsimp only at h
    cases hd : Dataframe.selectDialect
        (Dataframe.applyWriteDefaults options).Dialect with
    | error e => rw [hd] at h; cases h
    | ok dial =>
      rw [hd] at h
      dsimp only at h
      simp only [Bool.false_eq_true, if_false, applyWriteDefaults_CreateTable,
        Bool.not_false, and_self, and_true, true_and, if_true] at h
      split at h <;> cases h <;> simp

/-- C10 witness: an explicit `CreateTable := false` still produces a
CREATE TABLE action. -/
theorem C10_witness :
    Dataframe.ToSQLTxContext dfWrite "t" [{ CreateTable := false }] false =
      .ok [.checkExists "t", .createTable "t", .insertChunk 0 2] ∧
    Dataframe.SQLAction.createTable "t" ∈
      [Dataframe.SQLAction.checkExists "t", .createTable "t", .insertChunk 0 2] :=
  ⟨by decide,
    C10_createtable_not_overridable.2 dfWrite "t" [{ CreateTable := false }]
      [.checkExists "t", .createTable "t", .insertChunk 0 2] (by decide)⟩

end GoFrame
